import Mathlib

/-!
Verification of WinFlipbook (src/WinFlipbook/WinFlipbook.cpp): a shallow
embedding of the image generator, the render loop, the shader wrappers and
the resource lifecycle, with theorems settling the specification claims.
-/

namespace WinFlipbook

/-- Source constant `NUMIMAGES = 10`. -/
def NUMIMAGES : ℕ := 10

/-- Source constant `width = 1024` in `main`. -/
def srcWidth : ℕ := 1024

/-- Source constant `height = 768` in `main`. -/
def srcHeight : ℕ := 768

/-- `int bar = width * i / NUMIMAGES;` (line 193), parametrized by the
constants it reads. C `/` on nonnegative ints is `Nat` division. -/
def bar (width N i : ℕ) : ℕ := width * i / N

/-- `int barw = width / NUMIMAGES;` (line 194). -/
def barw (width N : ℕ) : ℕ := width / N

/-- One row of generated pixels: the inner `for (x = 0; x < width; x++)`
loop (lines 196-199), writing `0xffffffff` when `x >= bar && x <= bar + barw`
and `0` otherwise, in increasing `x` order. -/
def genRow (width N i : ℕ) : List ℕ :=
  (List.range width).map (fun x =>
    if bar width N i ≤ x ∧ x ≤ bar width N i + barw width N then 4294967295 else 0)

/-- All rows of frame `i`: the `for (y = 0; y < height; y++)` loop
(lines 195-200); each row is identical since the condition ignores `y`. -/
def genFrame (width height N i : ℕ) : List ℕ :=
  (List.range height).flatMap (fun _ => genRow width N i)

/-- The whole image buffer written by the initialization block
(lines 186-202): frames `0..N-1` laid out consecutively through `*p++`. -/
def genFrames (width height N : ℕ) : List ℕ :=
  (List.range N).flatMap (fun i => genFrame width height N i)

/-- Element count of `new unsigned[width * height * NUMIMAGES * 4]`
(line 190). -/
def allocCount (width height N : ℕ) : ℕ := width * height * N * 4

/-- Byte size of that single allocation: `sizeof(unsigned) = 4` on the
targeted platform, so `allocCount * 4` bytes. -/
def allocBytes (width height N : ℕ) : ℕ := allocCount width height N * 4

/-! ### Frame selection in the render loop -/

/-- The frame index used each iteration: `i % NUMIMAGES` (line 303). -/
def frameIndex (N i : ℕ) : ℕ := i % N

/-- The pointer offset `(i%NUMIMAGES)*width*height` (in `unsigned` elements)
passed to `frame.draw` (line 303). -/
def frameOffset (width height N i : ℕ) : ℕ := frameIndex N i * (width * height)

/-- The pixel data read by the iteration-`i` texture upload: `glTexImage2D`
(lines 168-171) consumes `width*height` RGBA texels, i.e. `width*height`
consecutive `unsigned` elements starting at the offset. -/
def selectedFrame (width height N i : ℕ) : List ℕ :=
  ((genFrames width height N).drop (frameOffset width height N i)).take (width * height)

/-! ### The render-loop state machine (lines 300-313) -/

/-- Phase of the render loop: inside the `do`-`while` vs. past it. -/
inductive LoopPhase
  | Running
  | ShuttingDown
  deriving DecidableEq

/-- State of the render loop: the counter `i` and the phase. -/
structure LoopState where
  counter : ℕ
  phase : LoopPhase
  deriving DecidableEq

/-- `int i = 0;` before entering the `do`-`while` (line 300). -/
def initialLoopState : LoopState := LoopState.mk 0 LoopPhase.Running

/-- The tail-of-iteration exit condition: the loop continues while
`glfwGetKey(window, GLFW_KEY_ESCAPE) != GLFW_PRESS && glfwWindowShouldClose(window) == 0`
(lines 312-313), so it exits exactly when the escape key samples pressed OR a
close request is pending.  `esc k` and `closeReq k` are the values those two
external polls return at the tail of iteration `k`. -/
def exitSignal (esc closeReq : ℕ → Bool) (k : ℕ) : Bool := esc k || closeReq k

/-- One `do`-`while` iteration: run the body (whose texture upload is
`selectedFrame` at the current counter), `++i`, then the tail check. A state
already past the loop is left unchanged. -/
def loopIter (esc closeReq : ℕ → Bool) (s : LoopState) : LoopState :=
  match s.phase with
  | LoopPhase.ShuttingDown => s
  | LoopPhase.Running =>
    if exitSignal esc closeReq s.counter then LoopState.mk (s.counter + 1) LoopPhase.ShuttingDown
    else LoopState.mk (s.counter + 1) LoopPhase.Running

/-- The loop state after `n` iterations from `i = 0`. -/
def loopRun (esc closeReq : ℕ → Bool) (n : ℕ) : LoopState :=
  (loopIter esc closeReq)^[n] initialLoopState

/-- `main`'s exit code (lines 206-233 and 320-323) as a function of the three
initialization outcomes and the input streams: `-1` early returns when
`glfwInit`, `glfwCreateWindow` or `glewInit` fails; `0` once the loop has
exited; `none` if after `fuel` iterations the loop is still running. -/
def mainExitCode (glfwOk windowOk glewOk : Bool) (esc closeReq : ℕ → Bool) (fuel : ℕ) :
    Option Int :=
  if glfwOk = false then some (-1)
  else if windowOk = false then some (-1)
  else if glewOk = false then some (-1)
  else if (loopRun esc closeReq fuel).phase = LoopPhase.ShuttingDown then some 0
  else none

/-! ### Shader compilation: shader_base.compile, lines 59-71 -/

/-- OpenGL's `GL_TRUE`. -/
def GL_TRUE : Int := 1

/-- What the driver reports about a shader object: the value
`glGetShaderiv(obj, GL_COMPILE_STATUS, &status)` stores, and the info-log
text `glGetShaderInfoLog` would produce. -/
structure ShaderDriverResult where
  compileStatus : Int
  infoLog : List Char

/-- The log actually captured: `glGetShaderInfoLog(shader_obj, 512, NULL, buffer)`
into `char buffer[512]` keeps at most 511 characters plus the terminator. -/
def truncLog (log : List Char) : List Char := log.take 511

/-- `shader_base::compile` (lines 59-71): query the compile status; if
`GL_TRUE != status`, fetch the bounded log and `throw runtime_error(buffer)`;
otherwise return normally. -/
def compile (d : ShaderDriverResult) : Except (List Char) Unit :=
  if GL_TRUE ≠ d.compileStatus then Except.error (truncLog d.infoLog) else Except.ok ()

/-! ### Shader program attach: shader_program, lines 91-140 -/

/-- GL program-object state touched by `shader_program`: the shaders attached
by `glAttachShader`, the fragment-data bindings issued by
`glBindFragDataLocation`, and whether `glLinkProgram` has run. -/
structure GLProgram where
  attachedShaders : List ℕ
  fragBindings : List (ℕ × String)
  linked : Bool

/-- A freshly created program object (`glCreateProgram`, line 97). -/
def freshProgram : GLProgram := GLProgram.mk [] [] false

/-- `attach(vertex_shader&)` (lines 102-107): only `glAttachShader`. -/
def attachVertex (p : GLProgram) (vs : ℕ) : GLProgram :=
  GLProgram.mk (p.attachedShaders ++ [vs]) p.fragBindings p.linked

/-- `attach(fragment_shader&)` (lines 108-114): `glAttachShader` then
`glBindFragDataLocation(handle, 0, "outColor")`. -/
def attachFragment (p : GLProgram) (fs : ℕ) : GLProgram :=
  GLProgram.mk (p.attachedShaders ++ [fs]) (p.fragBindings ++ [(0, "outColor")]) p.linked

/-- `link()` (lines 116-121): `glLinkProgram`. -/
def linkProgram (p : GLProgram) : GLProgram :=
  GLProgram.mk p.attachedShaders p.fragBindings true

/-! ### GPU resource lifecycle across main -/

/-- The GPU resources `main` creates during Setup. -/
inductive Resource
  | vertexShader
  | fragmentShader
  | shaderProgram
  | texture
  | vbo
  | ebo
  | vao
  deriving DecidableEq

/-- Acquisitions in Setup, in source order: `glGenVertexArrays` (line 245),
`glCreateShader` for the vertex then fragment shader (lines 250-251),
`glCreateProgram` (line 252), `glGenBuffers` for `vbo` (line 274) and `ebo`
(line 282), `glGenTextures` via the `framebuffer` constructor (line 291). -/
def setupAcquires : List Resource :=
  [Resource.vao, Resource.vertexShader, Resource.fragmentShader, Resource.shaderProgram,
   Resource.vbo, Resource.ebo, Resource.texture]

/-- Releases issued explicitly during ShuttingDown: `glDeleteBuffers(&ebo)`,
`glDeleteBuffers(&vbo)`, `glDeleteVertexArrays(&vao)` (lines 316-318). -/
def shutdownReleases : List Resource := [Resource.ebo, Resource.vbo, Resource.vao]

/-- Releases issued by destructors when `main`'s scope ends, in reverse
construction order: `~framebuffer` (`glDeleteTextures`, line 152),
`~shader_program` (`glDeleteProgram`, line 100), `~shader_base` for the
fragment then vertex shader (`glDeleteShader`, line 57). -/
def scopeExitReleases : List Resource :=
  [Resource.texture, Resource.shaderProgram, Resource.fragmentShader, Resource.vertexShader]

/-- All release calls issued by the time the process finishes. -/
def allReleases : List Resource := shutdownReleases ++ scopeExitReleases

/-! ### Indexing lemmas for the flat image buffer -/

lemma length_genRow (width N i : ℕ) : (genRow width N i).length = width := by
  simp [genRow]

lemma flatMap_range_length (f : ℕ → List ℕ) (L n : ℕ) (hf : ∀ i, (f i).length = L) :
    ((List.range n).flatMap f).length = n * L := by
  induction n with
  | zero => simp
  | succ n ih =>
    rw [List.range_succ, List.flatMap_append, List.length_append, ih]
    simp [List.flatMap, hf n, Nat.succ_mul]

lemma flatMap_range_getElem (f : ℕ → List ℕ) (L n a b : ℕ) (hf : ∀ i, (f i).length = L)
    (ha : a < n) (hb : b < L) :
    ((List.range n).flatMap f)[a * L + b]? = (f a)[b]? := by
  induction n with
  | zero => omega
  | succ n ih =>
    rw [List.range_succ, List.flatMap_append]
    rcases Nat.lt_or_ge a n with han | han
    · rw [List.getElem?_append, if_pos, ih han]
      calc a * L + b < a * L + L := by omega
        _ = (a + 1) * L := by ring
        _ ≤ n * L := Nat.mul_le_mul_right L han
        _ = ((List.range n).flatMap f).length := (flatMap_range_length f L n hf).symm
    · have haeq : a = n := by omega
      subst haeq
      rw [List.getElem?_append_right]
      · rw [flatMap_range_length f L a hf]
        simp [List.flatMap, Nat.add_sub_cancel_left]
      · rw [flatMap_range_length f L a hf]; omega

lemma genRow_getElem (width N i x : ℕ) (hx : x < width) :
    (genRow width N i)[x]? =
      some (if bar width N i ≤ x ∧ x ≤ bar width N i + barw width N then 4294967295 else 0) := by
  simp [genRow, List.getElem?_map, List.getElem?_range hx]

lemma length_genFrame (width height N i : ℕ) : (genFrame width height N i).length = height * width :=
  flatMap_range_length _ width height (fun _ => length_genRow width N i)

lemma length_genFrames (width height N : ℕ) :
    (genFrames width height N).length = N * (height * width) :=
  flatMap_range_length _ (height * width) N (fun i => length_genFrame width height N i)

lemma genFrame_getElem (width height N i y x : ℕ) (hy : y < height) (hx : x < width) :
    (genFrame width height N i)[y * width + x]? = (genRow width N i)[x]? :=
  flatMap_range_getElem _ width height y x (fun _ => length_genRow width N i) hy hx

lemma genFrames_getElem (width height N i y x : ℕ) (hi : i < N) (hy : y < height)
    (hx : x < width) :
    (genFrames width height N)[i * (height * width) + (y * width + x)]? =
      (genRow width N i)[x]? := by
  unfold genFrames
  rw [flatMap_range_getElem _ (height * width) N i (y * width + x)
      (fun j => length_genFrame width height N j) hi (by
        calc y * width + x < y * width + width := by omega
          _ = (y + 1) * width := by ring
          _ ≤ height * width := Nat.mul_le_mul_right width hy)]
  exact genFrame_getElem width height N i y x hy hx

/-- Full characterization of a generated pixel at frame `i`, row `y`, column `x`. -/
lemma genFrames_pixel (width height N i y x : ℕ) (hi : i < N) (hy : y < height)
    (hx : x < width) :
    (genFrames width height N)[i * height * width + y * width + x]? =
      some (if bar width N i ≤ x ∧ x ≤ bar width N i + barw width N then 4294967295 else 0) := by
  have hidx : i * height * width + y * width + x = i * (height * width) + (y * width + x) := by
    ring
  rw [hidx, genFrames_getElem width height N i y x hi hy hx, genRow_getElem width N i x hx]

/-! ### Render-loop lemmas -/

lemma loopIter_of_shutdown (esc closeReq : ℕ → Bool) (s : LoopState)
    (h : s.phase = LoopPhase.ShuttingDown) : loopIter esc closeReq s = s := by
  cases s with
  | mk cnt ph =>
    cases ph
    · exact LoopPhase.noConfusion h
    · rfl

lemma loopIter_counter (esc closeReq : ℕ → Bool) (s : LoopState)
    (h : s.phase = LoopPhase.Running) : (loopIter esc closeReq s).counter = s.counter + 1 := by
  cases s with
  | mk cnt ph =>
    cases ph
    · by_cases hsig : exitSignal esc closeReq cnt <;> simp [loopIter, hsig]
    · exact LoopPhase.noConfusion h

lemma loopIter_exit (esc closeReq : ℕ → Bool) (s : LoopState)
    (h : s.phase = LoopPhase.Running) (hsig : exitSignal esc closeReq s.counter = true) :
    (loopIter esc closeReq s).phase = LoopPhase.ShuttingDown := by
  cases s with
  | mk cnt ph =>
    cases ph
    · simp [loopIter, hsig]
    · exact LoopPhase.noConfusion h

lemma loopRun_succ (esc closeReq : ℕ → Bool) (n : ℕ) :
    loopRun esc closeReq (n + 1) = loopIter esc closeReq (loopRun esc closeReq n) :=
  Function.iterate_succ_apply' _ _ _

lemma loopRun_counter (esc closeReq : ℕ → Bool) :
    ∀ n, (loopRun esc closeReq n).phase = LoopPhase.Running →
      (loopRun esc closeReq n).counter = n := by
  intro n
  induction n with
  | zero => intro _; rfl
  | succ n ih =>
    intro h
    rw [loopRun_succ] at h ⊢
    cases hp : (loopRun esc closeReq n).phase with
    | Running => rw [loopIter_counter esc closeReq _ hp, ih hp]
    | ShuttingDown =>
      rw [loopIter_of_shutdown esc closeReq _ hp, hp] at h
      exact LoopPhase.noConfusion h

lemma shutdown_persists (esc closeReq : ℕ → Bool) (n : ℕ)
    (h : (loopRun esc closeReq n).phase = LoopPhase.ShuttingDown) :
    ∀ m, n ≤ m → (loopRun esc closeReq m).phase = LoopPhase.ShuttingDown := by
  intro m
  induction m with
  | zero =>
    intro hm
    have hn0 : n = 0 := Nat.le_zero.mp hm
    rw [← hn0]; exact h
  | succ m ih =>
    intro hm
    by_cases hc : n ≤ m
    · have hmph := ih hc
      rw [loopRun_succ, loopIter_of_shutdown esc closeReq _ hmph]
      exact hmph
    · have hn : n = m + 1 := by omega
      rw [← hn]; exact h

lemma loopRun_exits (esc closeReq : ℕ → Bool) (k n : ℕ)
    (hsig : exitSignal esc closeReq k = true) (hkn : k < n) :
    (loopRun esc closeReq n).phase = LoopPhase.ShuttingDown := by
  have hstep : (loopRun esc closeReq (k + 1)).phase = LoopPhase.ShuttingDown := by
    rw [loopRun_succ]
    cases hp : (loopRun esc closeReq k).phase with
    | Running =>
      have hc : (loopRun esc closeReq k).counter = k := loopRun_counter esc closeReq k hp
      exact loopIter_exit esc closeReq _ hp (by rw [hc]; exact hsig)
    | ShuttingDown =>
      rw [loopIter_of_shutdown esc closeReq _ hp]
      exact hp
  exact shutdown_persists esc closeReq (k + 1) hstep n hkn

lemma loopRun_no_signal (esc closeReq : ℕ → Bool)
    (hnone : ∀ k, exitSignal esc closeReq k = false) (n : ℕ) :
    loopRun esc closeReq n = LoopState.mk n LoopPhase.Running := by
  induction n with
  | zero => rfl
  | succ n ih => rw [loopRun_succ, ih]; simp [loopIter, hnone n]

end WinFlipbook

namespace WinFlipbook

/-- **C1.** For every frame `i < N`, row `y`, column `x`, the generator writes
`0xffffffff` at flat index `i*height*width + y*width + x` exactly when
`i*width/N ≤ x ≤ i*width/N + width/N` (integer division) and `0` otherwise;
and with `width = 1024`, `N = 10`, frame 0's bar spans columns `[0,102]` and
frame 9's bar spans columns `[921,1023]`. -/
theorem generated_pixel_correct (width height N i y x : ℕ) (hi : i < N) (hy : y < height)
    (hx : x < width) :
    (genFrames width height N)[i * height * width + y * width + x]? =
      some (if i * width / N ≤ x ∧ x ≤ i * width / N + width / N then 4294967295 else 0)
    ∧ bar 1024 10 0 = 0 ∧ bar 1024 10 0 + barw 1024 10 = 102
    ∧ bar 1024 10 9 = 921 ∧ bar 1024 10 9 + barw 1024 10 = 1023 := by
  refine ⟨?_, by decide, by decide, by decide, by decide⟩
  rw [genFrames_pixel width height N i y x hi hy hx]
  simp only [bar, barw, Nat.mul_comm width i]

/-- Concrete instance of C1: frame 1 of a 8×2, 4-frame flipbook, row 1, column 3. -/
theorem generated_pixel_correct_witness :
    (genFrames 8 2 4)[1 * 2 * 8 + 1 * 8 + 3]? =
      some (if 1 * 8 / 4 ≤ 3 ∧ 3 ≤ 1 * 8 / 4 + 8 / 4 then 4294967295 else 0)
    ∧ bar 1024 10 0 = 0 ∧ bar 1024 10 0 + barw 1024 10 = 102
    ∧ bar 1024 10 9 = 921 ∧ bar 1024 10 9 + barw 1024 10 = 1023 :=
  generated_pixel_correct 8 2 4 1 1 3 (by decide) (by decide) (by decide)

end WinFlipbook

namespace WinFlipbook

/-- **C3.** A state inside the `do`-`while` transitions to ShuttingDown at the
tail-of-iteration check exactly when the escape key samples pressed OR a close
request is pending; otherwise it stays Running and the body repeats. A close
request alone, with no key press, therefore suffices to exit. -/
theorem loop_exit_condition (esc closeReq : ℕ → Bool) (s : LoopState)
    (hs : s.phase = LoopPhase.Running) :
    ((loopIter esc closeReq s).phase = LoopPhase.ShuttingDown ↔
      (esc s.counter || closeReq s.counter) = true)
    ∧ ((loopIter esc closeReq s).phase = LoopPhase.Running ↔
      (esc s.counter || closeReq s.counter) = false) := by
  cases s with
  | mk cnt ph =>
    cases ph
    · cases hesc : esc cnt <;> cases hclose : closeReq cnt <;>
        simp [loopIter, exitSignal, hesc, hclose]
    · exact LoopPhase.noConfusion hs

/-- Concrete instance of C3: from the initial Running state, a pending close
request with the escape key never pressed transitions to ShuttingDown. -/
theorem loop_exit_condition_witness :
    ((loopIter (fun _ => false) (fun _ => true) initialLoopState).phase =
        LoopPhase.ShuttingDown ↔
      ((fun _ : ℕ => false) initialLoopState.counter ||
        (fun _ : ℕ => true) initialLoopState.counter) = true)
    ∧ ((loopIter (fun _ => false) (fun _ => true) initialLoopState).phase =
        LoopPhase.Running ↔
      ((fun _ : ℕ => false) initialLoopState.counter ||
        (fun _ : ℕ => true) initialLoopState.counter) = false) :=
  loop_exit_condition (fun _ => false) (fun _ => true) initialLoopState rfl

/-- **C5.** The exit code is `-1` exactly when one of the three
initializations fails (windowing library, window creation, GPU loader), and
`0` whenever all initializations succeed and the loop eventually observes an
exit signal — an escape-key press or a close request, indistinguishably. -/
theorem exit_codes (glfwOk windowOk glewOk : Bool) (esc closeReq : ℕ → Bool) (k fuel : ℕ)
    (hk : k < fuel) :
    (mainExitCode glfwOk windowOk glewOk esc closeReq fuel = some (-1) ↔
      (glfwOk = false ∨ windowOk = false ∨ glewOk = false))
    ∧ (glfwOk = true → windowOk = true → glewOk = true →
        (esc k = true ∨ closeReq k = true) →
        mainExitCode glfwOk windowOk glewOk esc closeReq fuel = some 0) := by
  constructor
  · cases glfwOk <;> cases windowOk <;> cases glewOk <;> simp [mainExitCode]
  · intro h1 h2 h3 hsig
    have hs : exitSignal esc closeReq k = true := by
      unfold exitSignal
      rcases hsig with h | h <;> simp [h]
    have hph := loopRun_exits esc closeReq k fuel hs hk
    simp [mainExitCode, h1, h2, h3, hph]

/-- Concrete instance of C5: all initializations succeed and a close request
(no key press) arrives at iteration 0, so one iteration suffices to exit 0;
and `-1` occurs only on an initialization failure. -/
theorem exit_codes_witness :
    (mainExitCode true true true (fun _ : ℕ => false) (fun _ : ℕ => true) 1 = some (-1) ↔
      (true = false ∨ true = false ∨ true = false))
    ∧ (true = true → true = true → true = true →
        ((fun _ : ℕ => false) 0 = true ∨ (fun _ : ℕ => true) 0 = true) →
        mainExitCode true true true (fun _ : ℕ => false) (fun _ : ℕ => true) 1 = some 0) :=
  exit_codes true true true (fun _ : ℕ => false) (fun _ : ℕ => true) 0 1 (by decide)

/-- **C6.** Frame selection is periodic with period `N`: iteration `i + N`
selects the same pixel data as iteration `i`; over iterations `0..N-1` the
frame indices are exactly `0..N-1` each once; iteration `N` selects frame 0's
pixel content again; and with no exit signal the loop is still Running after
any number of iterations, with the counter equal to the iteration count. -/
theorem frame_selection_periodic (width height N i : ℕ) :
    selectedFrame width height N (i + N) = selectedFrame width height N i
    ∧ (List.range N).map (frameIndex N) = List.range N
    ∧ selectedFrame width height N N = selectedFrame width height N 0
    ∧ (∀ k, loopRun (fun _ => false) (fun _ => false) k =
        LoopState.mk k LoopPhase.Running) := by
  refine ⟨?_, ?_, ?_, ?_⟩
  · unfold selectedFrame frameOffset frameIndex
    rw [Nat.add_mod_right]
  · have hcong : ∀ j ∈ List.range N, frameIndex N j = id j := by
      intro j hj
      simp [frameIndex, Nat.mod_eq_of_lt (List.mem_range.mp hj)]
    rw [List.map_congr_left hcong, List.map_id]
  · unfold selectedFrame frameOffset frameIndex
    rw [Nat.mod_self, Nat.zero_mod]
  · exact loopRun_no_signal _ _ (fun _ => rfl)

/-- **C10.** The iteration-`i` texture upload reads exactly the
`width*height`-element slice starting at offset `(i mod N)*width*height`; that
slice ends within the generated data, which itself fits inside the single
allocation, so the unbounded counter never causes an out-of-bounds read. -/
theorem upload_in_bounds (width height N i : ℕ) (hN : 0 < N) :
    frameOffset width height N i + width * height ≤ (genFrames width height N).length
    ∧ (genFrames width height N).length ≤ allocCount width height N
    ∧ (selectedFrame width height N i).length = width * height := by
  have hlen := length_genFrames width height N
  have h1 : frameOffset width height N i + width * height ≤ N * (height * width) := by
    unfold frameOffset frameIndex
    have hmod : i % N + 1 ≤ N := Nat.mod_lt i hN
    calc (i % N) * (width * height) + width * height
        = (i % N + 1) * (width * height) := by ring
      _ ≤ N * (width * height) := Nat.mul_le_mul_right _ hmod
      _ = N * (height * width) := by ring
  refine ⟨by rw [hlen]; exact h1, ?_, ?_⟩
  · rw [hlen]
    unfold allocCount
    calc N * (height * width) = width * height * N * 1 := by ring
      _ ≤ width * height * N * 4 := Nat.mul_le_mul_left _ (by omega)
  · unfold selectedFrame
    rw [List.length_take, List.length_drop, hlen]
    have h2 : width * height ≤ N * (height * width) - frameOffset width height N i := by
      revert h1
      generalize frameOffset width height N i = F
      generalize width * height = A
      generalize N * (height * width) = B
      intro h1
      omega
    rw [Nat.min_eq_left h2]

/-- Concrete instance of C10 at `width=8, height=2, N=4`, iteration 7. -/
theorem upload_in_bounds_witness :
    frameOffset 8 2 4 7 + 8 * 2 ≤ (genFrames 8 2 4).length
    ∧ (genFrames 8 2 4).length ≤ allocCount 8 2 4
    ∧ (selectedFrame 8 2 4 7).length = 8 * 2 :=
  upload_in_bounds 8 2 4 7 (by decide)

/-- **C2** (code bug): the single allocation at line 190 holds
`width*height*N*4` four-byte `unsigned` elements, i.e. `16*width*height*N`
bytes — four times the `width*height*N*4` bytes the spec states; the data the
generator writes occupies only `N*height*width` elements, i.e.
`width*height*N*4` bytes. At the program's constants the allocation is
125829120 bytes, not 31457280. -/
theorem allocation_size (width height N : ℕ) :
    allocBytes width height N = 16 * (width * height * N)
    ∧ (genFrames width height N).length * 4 = width * height * N * 4
    ∧ allocBytes 1024 768 10 = 125829120
    ∧ 1024 * 768 * 10 * 4 = 31457280
    ∧ allocBytes 1024 768 10 ≠ 1024 * 768 * 10 * 4 := by
  refine ⟨?_, ?_, by norm_num [allocBytes, allocCount], by norm_num,
    by norm_num [allocBytes, allocCount]⟩
  · unfold allocBytes allocCount
    ring
  · rw [length_genFrames]
    ring

/-- **C7.** Attaching the fragment shader always issues the binding of
fragment output 0 to the fixed name "outColor", producing the same bindings
whether the fragment shader is attached before or after the vertex shader; the
binding is present before `link` runs and survives it. -/
theorem frag_binding_invariant (p : GLProgram) (v f : ℕ) :
    (attachFragment (attachVertex p v) f).fragBindings =
      (attachVertex (attachFragment p f) v).fragBindings
    ∧ (attachFragment (attachVertex p v) f).fragBindings =
        p.fragBindings ++ [(0, "outColor")]
    ∧ (attachFragment (attachVertex p v) f).linked = p.linked
    ∧ (attachFragment (attachVertex freshProgram v) f).linked = false
    ∧ (linkProgram (attachFragment (attachVertex freshProgram v) f)).fragBindings =
        [(0, "outColor")] :=
  ⟨rfl, rfl, rfl, rfl, rfl⟩

/-- **C8.** Every GPU resource acquired during Setup has exactly one release
call issued by the time the process finishes: the element and vertex buffers
and the vertex-array object explicitly during ShuttingDown, the texture,
program and shader handles at their owning scope's exit. -/
theorem resources_released_once (r : Resource) :
    setupAcquires.count r = 1
    ∧ allReleases.count r = 1
    ∧ (shutdownReleases.count r = 1 ↔
        (r = Resource.ebo ∨ r = Resource.vbo ∨ r = Resource.vao))
    ∧ (scopeExitReleases.count r = 1 ↔
        (r = Resource.texture ∨ r = Resource.shaderProgram ∨
          r = Resource.fragmentShader ∨ r = Resource.vertexShader)) := by
  cases r <;> exact ⟨by decide, by decide, by decide, by decide⟩

end WinFlipbook

namespace WinFlipbook

/-- **C4.** `shader_base::compile` raises an error exactly when the queried
compile status differs from `GL_TRUE`; the error carries the driver log
truncated to the 512-byte buffer (at most 511 characters), which is non-empty
whenever the driver's diagnostic is non-empty; on success it returns normally. -/
theorem compile_status_and_log (d : ShaderDriverResult) (hlog : d.infoLog ≠ []) :
    ((∃ e, compile d = Except.error e) ↔ d.compileStatus ≠ GL_TRUE)
    ∧ (d.compileStatus ≠ GL_TRUE →
        compile d = Except.error (truncLog d.infoLog)
        ∧ (truncLog d.infoLog).length ≤ 511
        ∧ truncLog d.infoLog ≠ [])
    ∧ (d.compileStatus = GL_TRUE → compile d = Except.ok ()) := by
  refine ⟨⟨?_, ?_⟩, ?_, ?_⟩
  · rintro ⟨e, he⟩
    intro hstat
    rw [compile, if_neg (by rw [hstat]; exact fun hne => hne rfl)] at he
    exact Except.noConfusion he
  · intro hstat
    exact ⟨truncLog d.infoLog, by rw [compile, if_pos (Ne.symm hstat)]⟩
  · intro hstat
    refine ⟨by rw [compile, if_pos (Ne.symm hstat)], ?_, ?_⟩
    · rw [truncLog, List.length_take]
      exact Nat.min_le_left _ _
    · cases hl : d.infoLog with
      | nil => exact absurd hl hlog
      | cons c cs => simp [truncLog, hl]
  · intro hstat
    rw [compile, if_neg (by rw [hstat]; exact fun hne => hne rfl)]

/-- Concrete instance of C4: a failed status (0) with the one-character driver
log produces the error carrying that log; a successful status returns
normally. -/
theorem compile_status_and_log_witness :
    ((∃ e, compile (ShaderDriverResult.mk 0 ['e']) = Except.error e) ↔
      (ShaderDriverResult.mk 0 ['e']).compileStatus ≠ GL_TRUE)
    ∧ ((ShaderDriverResult.mk 0 ['e']).compileStatus ≠ GL_TRUE →
        compile (ShaderDriverResult.mk 0 ['e']) =
          Except.error (truncLog (ShaderDriverResult.mk 0 ['e']).infoLog)
        ∧ (truncLog (ShaderDriverResult.mk 0 ['e']).infoLog).length ≤ 511
        ∧ truncLog (ShaderDriverResult.mk 0 ['e']).infoLog ≠ [])
    ∧ ((ShaderDriverResult.mk 0 ['e']).compileStatus = GL_TRUE →
        compile (ShaderDriverResult.mk 0 ['e']) = Except.ok ()) :=
  compile_status_and_log (ShaderDriverResult.mk 0 ['e']) (by decide)

end WinFlipbook

namespace WinFlipbook

/-- A column is white in the generated row exactly when it is in range and
inside the inclusive bar interval. -/
lemma genRow_white_iff (width N i x : ℕ) :
    (genRow width N i)[x]? = some 4294967295 ↔
      (x < width ∧ bar width N i ≤ x ∧ x ≤ bar width N i + barw width N) := by
  constructor
  · intro hx
    have hxw : x < width := by
      by_contra hge
      rw [List.getElem?_eq_none (by rw [length_genRow]; omega)] at hx
      exact Option.noConfusion hx
    rw [genRow_getElem width N i x hxw, Option.some.injEq] at hx
    refine ⟨hxw, ?_⟩
    by_cases hc : bar width N i ≤ x ∧ x ≤ bar width N i + barw width N
    · exact hc
    · rw [if_neg hc] at hx
      exact absurd hx (by norm_num)
  · rintro ⟨hxw, hc⟩
    rw [genRow_getElem width N i x hxw, if_pos hc]

/-- Counting an inclusive interval's members below `n`. -/
lemma countP_interval_range (a b n : ℕ) :
    (List.range n).countP (fun x => decide (a ≤ x ∧ x ≤ b)) = min (b + 1) n - min a n := by
  induction n with
  | zero => simp
  | succ n ih =>
    rw [List.range_succ, List.countP_append, ih]
    simp only [List.countP_cons, List.countP_nil]
    by_cases ha : a ≤ n <;> by_cases hb : n ≤ b <;> simp [ha, hb] <;> omega

/-- The number of white columns in a generated row whose bar interval ends
before the right edge. -/
lemma count_white_genRow (width N i : ℕ) (h : bar width N i + barw width N < width) :
    (genRow width N i).countP (fun v => decide (v = 4294967295)) = barw width N + 1 := by
  unfold genRow
  rw [List.countP_map]
  rw [List.countP_congr (q := fun x =>
    decide (bar width N i ≤ x ∧ x ≤ bar width N i + barw width N))]
  · rw [countP_interval_range]
    have hb : bar width N i ≤ bar width N i + barw width N := Nat.le_add_right _ _
    rw [Nat.min_eq_left (by omega), Nat.min_eq_left (by omega)]
    omega
  · intro x _
    by_cases hc : bar width N i ≤ x ∧ x ≤ bar width N i + barw width N <;>
      simp [Function.comp, hc]

/-- `bar` is monotone in the frame index. -/
lemma bar_mono (width N i : ℕ) : bar width N i ≤ bar width N (i + 1) :=
  Nat.div_le_div_right (Nat.mul_le_mul_left width (Nat.le_succ i))

end WinFlipbook

namespace WinFlipbook

/-- **C9 counterexample.** With the program's constants (`width = 1024`,
`N = 10`), frame 2's bar ends at column 306 while frame 3's bar starts at
column 307: the pixels at the boundary show it, and the two inclusive bar
intervals are disjoint — refuting ''consecutive frames' bars are not
disjoint''. -/
theorem consecutive_bars_disjoint_cex :
    bar 1024 10 2 + barw 1024 10 < bar 1024 10 3
    ∧ (genFrames 1024 768 10)[2 * 768 * 1024 + 0 * 1024 + 306]? = some 4294967295
    ∧ (genFrames 1024 768 10)[2 * 768 * 1024 + 0 * 1024 + 307]? = some 0
    ∧ (genFrames 1024 768 10)[3 * 768 * 1024 + 0 * 1024 + 306]? = some 0
    ∧ (genFrames 1024 768 10)[3 * 768 * 1024 + 0 * 1024 + 307]? = some 4294967295
    ∧ Finset.Icc (bar 1024 10 2) (bar 1024 10 2 + barw 1024 10) ∩
        Finset.Icc (bar 1024 10 3) (bar 1024 10 3 + barw 1024 10) = ∅ := by
  have h2 : bar 1024 10 2 = 204 := by decide
  have h3 : bar 1024 10 3 = 307 := by decide
  have hw : barw 1024 10 = 102 := by decide
  refine ⟨by rw [h2, h3, hw]; omega, ?_, ?_, ?_, ?_, ?_⟩
  · rw [genFrames_pixel 1024 768 10 2 0 306 (by decide) (by decide) (by decide),
      h2, hw, if_pos (by omega)]
  · rw [genFrames_pixel 1024 768 10 2 0 307 (by decide) (by decide) (by decide),
      h2, hw, if_neg (by omega)]
  · rw [genFrames_pixel 1024 768 10 3 0 306 (by decide) (by decide) (by decide),
      h3, hw, if_neg (by omega)]
  · rw [genFrames_pixel 1024 768 10 3 0 307 (by decide) (by decide) (by decide),
      h3, hw, if_pos (by omega)]
  · rw [h2, h3, hw]
    ext x
    simp only [Finset.mem_inter, Finset.mem_Icc, Finset.not_mem_empty, iff_false]
    omega

/-- **C9 (amended).** For every frame whose inclusive bar interval ends before
the right edge: the bar is exactly `width/N + 1` columns wide (not `width/N`);
whenever `i*width/N + width/N` equals `(i+1)*width/N`, that column is white in
both frame `i` and frame `i+1`; and consecutive frames' bars overlap exactly
when `(i+1)*width/N ≤ i*width/N + width/N` — so they can be disjoint, as
frames 2 and 3 are at the program's constants. -/
theorem bar_width_and_overlap (width N i : ℕ)
    (h : bar width N i + barw width N < width) :
    (genRow width N i).countP (fun v => decide (v = 4294967295)) = width / N + 1
    ∧ width / N + 1 ≠ width / N
    ∧ (bar width N (i + 1) = bar width N i + barw width N →
        (genRow width N i)[bar width N (i + 1)]? = some 4294967295
        ∧ (genRow width N (i + 1))[bar width N (i + 1)]? = some 4294967295)
    ∧ ((∃ x : ℕ, (genRow width N i)[x]? = some 4294967295
          ∧ (genRow width N (i + 1))[x]? = some 4294967295)
        ↔ bar width N (i + 1) ≤ bar width N i + barw width N) := by
  refine ⟨count_white_genRow width N i h, by omega, ?_, ?_, ?_⟩
  · intro heq
    constructor
    · rw [genRow_white_iff]
      refine ⟨by omega, by omega, by omega⟩
    · rw [genRow_white_iff]
      exact ⟨by omega, Nat.le_refl _, Nat.le_add_right _ _⟩
  · rintro ⟨x, hxi, hxs⟩
    rw [genRow_white_iff] at hxi hxs
    omega
  · intro hle
    refine ⟨bar width N (i + 1), ?_, ?_⟩
    · rw [genRow_white_iff]
      have hmono := bar_mono width N i
      exact ⟨by omega, hmono, hle⟩
    · rw [genRow_white_iff]
      exact ⟨by omega, Nat.le_refl _, Nat.le_add_right _ _⟩

/-- Concrete instance of the amended C9 at `width = 8`, `N = 4`, frame 0:
the bar is 3 columns wide, and column 2 is white in both frames 0 and 1. -/
theorem bar_width_and_overlap_witness :
    (genRow 8 4 0).countP (fun v => decide (v = 4294967295)) = 8 / 4 + 1
    ∧ 8 / 4 + 1 ≠ 8 / 4
    ∧ (bar 8 4 (0 + 1) = bar 8 4 0 + barw 8 4 →
        (genRow 8 4 0)[bar 8 4 (0 + 1)]? = some 4294967295
        ∧ (genRow 8 4 (0 + 1))[bar 8 4 (0 + 1)]? = some 4294967295)
    ∧ ((∃ x : ℕ, (genRow 8 4 0)[x]? = some 4294967295
          ∧ (genRow 8 4 (0 + 1))[x]? = some 4294967295)
        ↔ bar 8 4 (0 + 1) ≤ bar 8 4 0 + barw 8 4) :=
  bar_width_and_overlap 8 4 0 (by decide)

end WinFlipbook
